import Mathlib

/-!
Verification of the lightning-serve Vision-Language RAG core.

Shallow embedding of `src/app/vision_rag.py` (class `VisionLanguageRAG`) and the
caching/query endpoints of `src/app/main.py`. External collaborators (Cohere
embedding provider, Gemini generation provider, the filesystem/rasterizer and
`np.random`) are modelled as oracle inputs: each provider call's outcome is a
parameter of the operation, since the Python code only branches on whether the
call returned a value or raised. Latencies measured with `time.time()` are
likewise oracle parameters of type `ℚ` (floats are modelled as exact rationals).
`np.argsort` is modelled as the stable ascending index sort (for small arrays
numpy's introsort falls back to stable insertion sort, and the spec
itself describes the algorithm as "sorting ascending and then reversing").
-/

set_option maxRecDepth 20000

/-! ## String helpers: os.path.basename, str.lower().endswith(IMG_EXTS) -/

/-- Model of `os.path.basename`: characters after the last slash. -/
def basenameOf (p : String) : String :=
  String.mk (p.data.foldl (fun acc c => if c = '/' then [] else acc ++ [c]) [])

/-- Model of `str.lower()` (ASCII case folding, as used on file names). -/
def strLower (s : String) : String := String.mk (s.data.map Char.toLower)

/-- Model of `is_image_file` from `vision_rag.process_images`:
`filename.lower().endswith(('.png', '.jpg', '.jpeg', '.bmp', '.gif'))`. -/
def is_image_file (filename : String) : Bool :=
  [".png", ".jpg", ".jpeg", ".bmp", ".gif"].any
    (fun ext => ext.data.isSuffixOf (strLower filename).data)

/-! ## MD5 (hashlib.md5) and the cache fingerprint of main.rag_query

The cache key of `main.rag_query` is
`f"rag:{collection_name}:{hashlib.md5(query.encode()).hexdigest()}"`.
MD5 is implemented here in full (RFC 1321); it matches CPython's
`hashlib.md5(...).hexdigest()` on the standard test vectors. -/

/-- Truncate to a 32-bit word. -/
def u32 (x : Nat) : Nat := x % 4294967296

/-- Left-rotate a 32-bit word by `n` bits (for `0 < n < 32` and argument `< 2^32`). -/
def rotl32 (x n : Nat) : Nat := u32 (x * 2 ^ n + x / 2 ^ (32 - n))

/-- Bitwise complement of a 32-bit word. -/
def not32 (x : Nat) : Nat := 4294967295 ^^^ x

/-- UTF-8 encoding of a string, as Python's `str.encode()` produces (byte values). -/
def utf8Bytes (s : String) : List Nat :=
  (s.data.map (fun c =>
    let n := c.toNat
    if n < 128 then [n]
    else if n < 2048 then [192 + n / 64, 128 + n % 64]
    else if n < 65536 then [224 + n / 4096, 128 + n / 64 % 64, 128 + n % 64]
    else [240 + n / 262144, 128 + n / 4096 % 64, 128 + n / 64 % 64, 128 + n % 64])).flatten

/-- The 64 MD5 sine-table constants. -/
def md5K : List Nat :=
  [0xd76aa478, 0xe8c7b756, 0x242070db, 0xc1bdceee,
   0xf57c0faf, 0x4787c62a, 0xa8304613, 0xfd469501,
   0x698098d8, 0x8b44f7af, 0xffff5bb1, 0x895cd7be,
   0x6b901122, 0xfd987193, 0xa679438e, 0x49b40821,
   0xf61e2562, 0xc040b340, 0x265e5a51, 0xe9b6c7aa,
   0xd62f105d, 0x02441453, 0xd8a1e681, 0xe7d3fbc8,
   0x21e1cde6, 0xc33707d6, 0xf4d50d87, 0x455a14ed,
   0xa9e3e905, 0xfcefa3f8, 0x676f02d9, 0x8d2a4c8a,
   0xfffa3942, 0x8771f681, 0x6d9d6122, 0xfde5380c,
   0xa4beea44, 0x4bdecfa9, 0xf6bb4b60, 0xbebfbc70,
   0x289b7ec6, 0xeaa127fa, 0xd4ef3085, 0x04881d05,
   0xd9d4d039, 0xe6db99e5, 0x1fa27cf8, 0xc4ac5665,
   0xf4292244, 0x432aff97, 0xab9423a7, 0xfc93a039,
   0x655b59c3, 0x8f0ccc92, 0xffeff47d, 0x85845dd1,
   0x6fa87e4f, 0xfe2ce6e0, 0xa3014314, 0x4e0811a1,
   0xf7537e82, 0xbd3af235, 0x2ad7d2bb, 0xeb86d391]

/-- The 64 MD5 per-round rotate amounts. -/
def md5S : List Nat :=
  [7, 12, 17, 22, 7, 12, 17, 22, 7, 12, 17, 22, 7, 12, 17, 22,
   5, 9, 14, 20, 5, 9, 14, 20, 5, 9, 14, 20, 5, 9, 14, 20,
   4, 11, 16, 23, 4, 11, 16, 23, 4, 11, 16, 23, 4, 11, 16, 23,
   6, 10, 15, 21, 6, 10, 15, 21, 6, 10, 15, 21, 6, 10, 15, 21]

/-- MD5 round function for round `i`. -/
def md5F (i b c d : Nat) : Nat :=
  if i < 16 then (b &&& c) ||| (not32 b &&& d)
  else if i < 32 then (d &&& b) ||| (not32 d &&& c)
  else if i < 48 then b ^^^ c ^^^ d
  else c ^^^ (b ||| not32 d)

/-- Message-word index used in round `i`. -/
def md5G (i : Nat) : Nat :=
  if i < 16 then i
  else if i < 32 then (5 * i + 1) % 16
  else if i < 48 then (3 * i + 5) % 16
  else (7 * i) % 16

/-- One MD5 round applied to the running state `(a, b, c, d)`. -/
def md5Round (M : List Nat) (st : Nat × Nat × Nat × Nat) (i : Nat) :
    Nat × Nat × Nat × Nat :=
  let (a, b, c, d) := st
  let tmp := u32 (a + md5F i b c d + md5K.getD i 0 + M.getD (md5G i) 0)
  (d, u32 (b + rotl32 tmp (md5S.getD i 0)), b, c)

/-- Decode a 64-byte block into 16 little-endian 32-bit words. -/
def leWords : List Nat → List Nat
  | b0 :: b1 :: b2 :: b3 :: rest =>
      (b0 + 256 * b1 + 65536 * b2 + 16777216 * b3) :: leWords rest
  | _ => []

/-- MD5 compression of one 64-byte block into the chaining state. -/
def md5Compress (h : Nat × Nat × Nat × Nat) (block : List Nat) :
    Nat × Nat × Nat × Nat :=
  let M := leWords block
  let st := (List.range 64).foldl (md5Round M) h
  (u32 (h.1 + st.1), u32 (h.2.1 + st.2.1), u32 (h.2.2.1 + st.2.2.1),
   u32 (h.2.2.2 + st.2.2.2))

/-- Little-endian byte expansion of a number to `k` bytes. -/
def leBytes : Nat → Nat → List Nat
  | 0, _ => []
  | k + 1, x => (x % 256) :: leBytes k (x / 256)

/-- MD5 padding: append `0x80`, zero-fill to 56 mod 64, append the 64-bit
little-endian bit length. -/
def md5Pad (m : List Nat) : List Nat :=
  let L := m.length
  let z := (120 - (L + 1) % 64) % 64
  m ++ [128] ++ List.replicate z 0 ++ leBytes 8 (8 * L)

/-- Fold the compression function over the 64-byte blocks of the padded input.
Structural recursion on a fuel argument (each step consumes 64 bytes, so
`m.length` steps always suffice). -/
def md5BlocksFuel : Nat → Nat × Nat × Nat × Nat → List Nat → Nat × Nat × Nat × Nat
  | 0, h, _ => h
  | _ + 1, h, [] => h
  | fuel + 1, h, m => md5BlocksFuel fuel (md5Compress h (m.take 64)) (m.drop 64)

/-- Fold the compression function over all 64-byte blocks of the padded input. -/
def md5Blocks (h : Nat × Nat × Nat × Nat) (m : List Nat) : Nat × Nat × Nat × Nat :=
  md5BlocksFuel m.length h m

/-- The four 32-bit state words of the MD5 digest of a byte string. -/
def md5Words (m : List Nat) : Nat × Nat × Nat × Nat :=
  md5Blocks (0x67452301, 0xefcdab89, 0x98badcfe, 0x10325476) (md5Pad m)

/-- Lowercase hex digit. -/
def hexChar (n : Nat) : Char := "0123456789abcdef".data.getD n '0'

/-- Two lowercase hex digits of a byte. -/
def byteHex (b : Nat) : List Char := [hexChar (b / 16 % 16), hexChar (b % 16)]

/-- Eight hex digits of a 32-bit word, in little-endian byte order
(the order in which `hexdigest` prints each state word). -/
def wordHex (w : Nat) : List Char :=
  byteHex (u32 w % 256) ++ byteHex (u32 w / 256 % 256) ++
  byteHex (u32 w / 65536 % 256) ++ byteHex (u32 w / 16777216 % 256)

/-- Model of `hashlib.md5(s.encode()).hexdigest()`. -/
def md5Hex (s : String) : String :=
  let w := md5Words (utf8Bytes s)
  String.mk (wordHex w.1 ++ wordHex w.2.1 ++ wordHex w.2.2.1 ++ wordHex w.2.2.2)

/-- Cache key of `main.rag_query`:
`f"rag:{collection_name}:{hashlib.md5(query.encode()).hexdigest()}"`. -/
def fingerprint (collection_name question : String) : String :=
  "rag:" ++ collection_name ++ ":" ++ md5Hex question

/-- The MD5 digest as a quadruple of 32-bit values: the (finite) codomain
through which `fingerprint` sends the query text. -/
def md5Fin (s : String) :
    Fin 4294967296 × Fin 4294967296 × Fin 4294967296 × Fin 4294967296 :=
  let w := md5Words (utf8Bytes s)
  (⟨u32 w.1, Nat.mod_lt _ (by norm_num)⟩,
   ⟨u32 w.2.1, Nat.mod_lt _ (by norm_num)⟩,
   ⟨u32 w.2.2.1, Nat.mod_lt _ (by norm_num)⟩,
   ⟨u32 w.2.2.2, Nat.mod_lt _ (by norm_num)⟩)

/-! ## Retrieval: vision_rag.search

`cos_sim_scores = np.dot(query_emb, doc_embeddings.T)` followed by
`top_indices = np.argsort(cos_sim_scores)[-top_k:][::-1]`. -/

/-- Dot product of two rational vectors (`np.dot` on vectors). -/
def dotQ (a b : List ℚ) : ℚ := (List.zipWith (· * ·) a b).sum

/-- Scores of a query against every stored row:
`np.dot(query_emb, doc_embeddings.T)`. -/
def rowScores (q : List ℚ) (embs : List (List ℚ)) : List ℚ := embs.map (dotQ q)

/-- Comparison modelling stable ascending `np.argsort`: compare scores and break
ties by original index. -/
def argRel (s : List ℚ) (i j : Nat) : Prop :=
  s.getD i 0 < s.getD j 0 ∨ (s.getD i 0 = s.getD j 0 ∧ i ≤ j)

instance (s : List ℚ) : DecidableRel (argRel s) := fun i j => by
  unfold argRel; infer_instance

instance (s : List ℚ) : IsTotal Nat (argRel s) := ⟨by
  intro a b
  rcases lt_trichotomy (s.getD a 0) (s.getD b 0) with h | h | h
  · exact Or.inl (Or.inl h)
  · rcases Nat.le_total a b with hab | hab
    · exact Or.inl (Or.inr ⟨h, hab⟩)
    · exact Or.inr (Or.inr ⟨h.symm, hab⟩)
  · exact Or.inr (Or.inl h)⟩

instance (s : List ℚ) : IsTrans Nat (argRel s) := ⟨by
  intro a b c hab hbc
  rcases hab with h1 | ⟨h1, h1'⟩ <;> rcases hbc with h2 | ⟨h2, h2'⟩
  · exact Or.inl (h1.trans h2)
  · exact Or.inl (h2 ▸ h1)
  · exact Or.inl (h1 ▸ h2)
  · exact Or.inr ⟨h1.trans h2, h1'.trans h2'⟩⟩

/-- Model of `np.argsort(scores)`: indices sorted ascending by score, ties in
ascending index order (stable sort semantics). -/
def argsortStable (s : List ℚ) : List Nat :=
  (List.range s.length).insertionSort (argRel s)

/-- Python's `xs[-k:]` slice (for `k = 0` the slice is the whole list). -/
def takeLastPy (k : Nat) (xs : List Nat) : List Nat :=
  if k = 0 then xs else xs.drop (xs.length - k)

/-- Model of `np.argsort(cos_sim_scores)[-top_k:][::-1]`. -/
def topIndices (s : List ℚ) (k : Nat) : List Nat :=
  (takeLastPy k (argsortStable s)).reverse

/-- Results of the provider-backed branch of `vision_rag.search`, as
(item path, similarity score) pairs in output order (the loaded PIL image in
the middle of the source tuple carries no additional information). -/
def searchReady (q : List ℚ) (img_paths : List String) (embs : List (List ℚ))
    (top_k : Nat) : List (String × ℚ) :=
  (topIndices (rowScores q embs) top_k).map
    (fun i => (img_paths.getD i "", (rowScores q embs).getD i 0))

/-! ## Oracles for the external providers -/

/-- Outcomes of all external provider calls, as oracle inputs.
`embedDoc` is the per-item document-embedding call of `process_images`
(`none` means the call raised and the item is skipped); `qEmb` is the
query-embedding call of `search`; `gen` is the Gemini generation call of
`answer`; `demoRand` is the `np.random.rand(n, 1024)` oracle of demo mode,
whose row count is always the item count (only its entries are random). -/
structure Providers where
  ready : Bool
  embedDoc : String → Option (List ℚ)
  qEmb : Except String (List ℚ)
  gen : Except String String
  demoRand : Nat → List (List ℚ)
  demoRand_rows : ∀ n, (demoRand n).length = n

/-- Model of `vision_rag.search` including the demo-mode branch
(`[(img_paths[0], Image, 0.95)] if img_paths else []`). -/
def searchModel (prov : Providers) (img_paths : List String)
    (embs : List (List ℚ)) (top_k : Nat) : Except String (List (String × ℚ)) :=
  if prov.ready = false then
    .ok (match img_paths with
      | [] => []
      | p :: _ => [(p, 19 / 20)])
  else
    match prov.qEmb with
    | .error e => .error e
    | .ok q => .ok (searchReady q img_paths embs top_k)

/-- Model of `vision_rag.answer`: demo mode returns the templated placeholder,
otherwise the generation provider's outcome is returned (the prompt assembly
and the attached context images do not influence control flow). -/
def answerModel (prov : Providers) (question img_path : String) :
    Except String String :=
  if prov.ready = false then
    .ok ("Demo answer for: " ++ question ++ " (based on " ++ basenameOf img_path ++ ")")
  else prov.gen

/-! ## Data model: collections, metrics, registry state -/

/-- One stored collection (`self.collections[collection_name]` value). -/
structure Collection where
  image_paths : List String
  embeddings : List (List ℚ)
  created_at : ℚ
  document_count : Nat
  total_pages : Nat
deriving DecidableEq

/-- Process-wide `self.performance_metrics`. -/
structure Metrics where
  total_queries : Nat
  cache_hits : Nat
  avg_query_time : ℚ
  total_documents : Nat
deriving DecidableEq

/-- State owned by the `VisionLanguageRAG` instance: the collection registry
(a name-keyed dictionary, modelled as a first-match association list) and the
performance metrics. -/
structure RagState where
  collections : List (String × Collection)
  metrics : Metrics
deriving DecidableEq

/-- Dictionary lookup `self.collections[name]` / `name in self.collections`. -/
def lookupColl (st : RagState) (name : String) : Option Collection :=
  (st.collections.find? (fun e => e.1 == name)).map (fun e => e.2)

/-! ## Ingestion: vision_rag.process_images and vision_rag.index_documents -/

/-- Model of `vision_rag.process_images` restricted to file inputs (the only
inputs `index_documents` passes). In demo mode the input paths are returned
unfiltered with the random matrix; otherwise the paths are filtered by image
extension and each surviving path is embedded, a failed provider call dropping
only that item's vector (the `continue` in the source skips the append to
`embeddings` but `img_paths` was built beforehand). -/
def processImages (prov : Providers) (input_paths : List String) :
    List String × List (List ℚ) :=
  if prov.ready = false then (input_paths, prov.demoRand input_paths.length)
  else
    let img_paths := input_paths.filter (fun p => is_image_file p)
    (img_paths, img_paths.filterMap prov.embedDoc)

/-- One input file of `index_documents`, together with the outcome of the
filesystem work the source performs on it: for a `.pdf` path, the outcome of
`convert_pdf_to_images_pymupdf` (the produced per-page image paths in page
order, or the raised error); otherwise the outcome of `shutil.copy2` (the
persistent path, or the raised error). -/
inductive FileInput where
  | pdf (path : String) (raster : Except String (List String))
  | img (path : String) (copy : Except String String)

/-- The rasterize/copy loop of `index_documents`: builds `all_image_paths` and
`total_pages`; the first failing file raises and aborts the whole loop. -/
def processFiles : List FileInput → Except String (List String × Nat)
  | [] => .ok ([], 0)
  | FileInput.pdf _ (.error e) :: _ => .error e
  | FileInput.pdf _ (.ok pages) :: rest =>
      match processFiles rest with
      | .error e => .error e
      | .ok (ps, n) => .ok (pages ++ ps, pages.length + n)
  | FileInput.img _ (.error e) :: _ => .error e
  | FileInput.img _ (.ok p) :: rest =>
      match processFiles rest with
      | .error e => .error e
      | .ok (ps, n) => .ok (p :: ps, 1 + n)

/-- Response of `index_documents`. -/
structure IndexResult where
  total_pages : Nat
  embeddings_count : Nat
  processing_time : ℚ
  collection_size : Nat
deriving DecidableEq

/-- Model of `vision_rag.index_documents`. A raised rasterize/copy error
propagates before anything is stored; otherwise the embeddings are produced
and the collection entry is replaced wholesale (dictionary assignment,
modelled by shadowing in the association list), and `total_documents` grows by
the number of input files. `now` is the `time.time()` oracle stored as
`created_at`, `elapsed` the measured `processing_time`. -/
def indexDocuments (prov : Providers) (st : RagState) (collection_name : String)
    (files : List FileInput) (now elapsed : ℚ) :
    Except String IndexResult × RagState :=
  match processFiles files with
  | .error e => (.error e, st)
  | .ok (all_image_paths, total_pages) =>
    let pe := processImages prov all_image_paths
    let coll : Collection :=
      { image_paths := pe.1, embeddings := pe.2, created_at := now,
        document_count := files.length, total_pages := total_pages }
    let st' : RagState :=
      { collections := (collection_name, coll) :: st.collections,
        metrics := { st.metrics with
          total_documents := st.metrics.total_documents + files.length } }
    (.ok { total_pages := total_pages, embeddings_count := pe.2.length,
           processing_time := elapsed, collection_size := pe.1.length }, st')

/-! ## Query pipeline: vision_rag.query -/

/-- Response of `vision_rag.query` (the static `system_info` block is omitted). -/
structure QueryResult where
  query : String
  answer : String
  source_document : String
  similarity_score : ℚ
  context_documents : List (String × ℚ)
  collection : String
  processing_time : ℚ
deriving DecidableEq

/-- Model of `vision_rag.query`. The total-query counter is incremented first,
on every attempt; the rolling average is updated only at the end of the
successful path, with `n` the current (post-increment) counter value.
`include_context` only selects which images are attached to the generation
prompt, which the generation oracle already absorbs. `latency` is the measured
`processing_time` oracle. -/
def serviceQuery (prov : Providers) (st : RagState)
    (question collection_name : String) (top_k : Nat)
    (include_context : Bool) (latency : ℚ) :
    Except String QueryResult × RagState :=
  let m1 := { st.metrics with total_queries := st.metrics.total_queries + 1 }
  let st1 : RagState := { st with metrics := m1 }
  match lookupColl st collection_name with
  | none =>
      (.error ("Collection " ++ collection_name ++ " not found. Upload documents first."), st1)
  | some coll =>
    if coll.image_paths.length = 0 then (.error "No documents in collection", st1)
    else
      match searchModel prov coll.image_paths coll.embeddings top_k with
      | .error e => (.error e, st1)
      | .ok [] => (.error "No relevant documents found", st1)
      | .ok ((best_path, best_sim) :: rest) =>
        match answerModel prov question best_path with
        | .error e => (.error e, st1)
        | .ok ans =>
          let n : ℚ := (m1.total_queries : ℚ)
          let m2 := { m1 with
            avg_query_time := (m1.avg_query_time * (n - 1) + latency) / n }
          (.ok { query := question, answer := ans,
                 source_document := basenameOf best_path,
                 similarity_score := best_sim,
                 context_documents :=
                   ((best_path, best_sim) :: rest).map (fun r => (basenameOf r.1, r.2)),
                 collection := collection_name,
                 processing_time := latency },
           { st1 with metrics := m2 })

/-! ## HTTP layer: main.rag_query and main.batch_rag_query -/

/-- The response dict of `main.rag_query`, which is also the shape stored in
the Redis cache: the pipeline payload plus the `from_cache` annotation and, on
a cache hit, the `cache_retrieval_time` annotation. -/
structure HttpResult where
  payload : QueryResult
  from_cache : Bool
  cache_retrieval_time : Option ℚ
deriving DecidableEq

/-- Redis cache content: key, stored value and the TTL it was stored with
(most recent `setex` first, as lookups see it). -/
def RedisCache := List (String × HttpResult × Nat)

/-- Model of `redis_client.get`. -/
def redisGet (cache : RedisCache) (key : String) : Option HttpResult :=
  ((cache : List (String × HttpResult × Nat)).find? (fun e => e.1 == key)).map
    (fun e => e.2.1)

/-- Model of `redis_client.setex(key, ttl, value)`. -/
def redisSetex (cache : RedisCache) (key : String) (v : HttpResult) (ttl : Nat) :
    RedisCache :=
  ((key, v, ttl) :: cache : List (String × HttpResult × Nat))

/-- Server-level state: the RAG service state plus the Redis client
(`none` when the process runs without Redis). -/
structure ServerState where
  rag : RagState
  redis : Option RedisCache

/-- Model of the `main.rag_query` endpoint. The fingerprint is computed first;
a cache hit increments the hit and total-query counters, annotates the cached
payload with `from_cache=True` and a fresh `cache_retrieval_time`, and returns
without running the pipeline. A miss runs `vision_rag.query`; a successful
result with a truthy answer is stored with TTL 600 seconds; a failure
propagates as an HTTP 500 and stores nothing. `svcLatency`, `httpLatency` and
`cacheLatency` are the `time.time()` oracles of the pipeline measurement, the
endpoint measurement and the hit-path measurement. -/
def ragQuery (prov : Providers) (st : ServerState)
    (question collection_name : String) (top_k : Nat) (include_context : Bool)
    (svcLatency httpLatency cacheLatency : ℚ) :
    Except String HttpResult × ServerState :=
  let key := fingerprint collection_name question
  match (match st.redis with
         | some c => redisGet c key
         | none => none) with
  | some v =>
      let m := st.rag.metrics
      let rag' : RagState := { st.rag with metrics :=
        { m with total_queries := m.total_queries + 1,
                 cache_hits := m.cache_hits + 1 } }
      (.ok { v with from_cache := true, cache_retrieval_time := some cacheLatency },
       { st with rag := rag' })
  | none =>
      let qr := serviceQuery prov st.rag question collection_name top_k
        include_context svcLatency
      match qr.1 with
      | .error e => (.error ("RAG query failed: " ++ e), { st with rag := qr.2 })
      | .ok r =>
        let r' := { r with processing_time := httpLatency }
        let stored : HttpResult :=
          { payload := r', from_cache := false, cache_retrieval_time := none }
        let redis' := match st.redis with
          | some c =>
              if r'.answer = "" then some c
              else some (redisSetex c key stored 600)
          | none => none
        (.ok { payload := r', from_cache := false, cache_retrieval_time := none },
         { st with rag := qr.2, redis := redis' })

/-- Sequential model of the fan-out in `main.batch_rag_query`: each sub-query
runs the full `vision_rag.query` pipeline (with `include_context=False`) and a
failing sub-query is captured in its own slot. The shared metrics are threaded
through in order (the event loop interleaves the increments; their totals are
order-independent). -/
def runQueries (prov : Providers) (rag : RagState) (queries : List String)
    (collection_name : String) (top_k : Nat) (latency : ℚ) :
    List (Except String QueryResult) × RagState :=
  match queries with
  | [] => ([], rag)
  | q :: rest =>
    let r := serviceQuery prov rag q collection_name top_k false latency
    let rs := runQueries prov r.2 rest collection_name top_k latency
    (r.1 :: rs.1, rs.2)

/-- Model of the `main.batch_rag_query` endpoint: guard the batch size, then
fan out the sub-queries. The Redis cache is neither consulted nor written. -/
def batchRagQuery (prov : Providers) (st : ServerState) (queries : List String)
    (collection_name : String) (top_k : Nat) (latency : ℚ) :
    Except String (List (Except String QueryResult)) × ServerState :=
  if queries.length = 0 then (.error "Provide at least one query", st)
  else if 20 < queries.length then (.error "Batch size limited to 20 queries", st)
  else
    let rs := runQueries prov st.rag queries collection_name top_k latency
    (.ok rs.1, { st with rag := rs.2 })

/-- Model of `vision_rag.get_cache_hit_rate`:
`hits / max(total, 1) * 100`. -/
def getCacheHitRate (st : RagState) : ℚ :=
  ((st.metrics.cache_hits : ℚ) / (max st.metrics.total_queries 1 : Nat)) * 100

/-! ## Concrete instances used by the closed theorems -/

/-- Demo-mode providers (no API keys configured). -/
def demoProviders : Providers where
  ready := false
  embedDoc := fun _ => none
  qEmb := .error "no cohere client"
  gen := .error "no gemini client"
  demoRand := fun n => List.replicate n (List.replicate 1024 0)
  demoRand_rows := by intro n; simp

/-- Ready providers whose document-embedding call succeeds on `a.png` and
raises on `b.png`. -/
def failingEmbedProviders : Providers where
  ready := true
  embedDoc := fun p => if p = "collections/c/a.png" then some [1] else none
  qEmb := .ok [1]
  gen := .ok "an answer"
  demoRand := fun n => List.replicate n []
  demoRand_rows := by intro n; simp

/-- Empty registry with zeroed metrics (freshly constructed service). -/
def freshRag : RagState := { collections := [], metrics := ⟨0, 0, 0, 0⟩ }

/-- A one-item demo collection used by concrete witnesses. -/
def demoCollection : Collection :=
  { image_paths := ["collections/c/a.png"], embeddings := [[1]],
    created_at := 0, document_count := 1, total_pages := 1 }

/-- Registry holding only `demoCollection` under the name `c`. -/
def demoRag : RagState :=
  { collections := [("c", demoCollection)], metrics := ⟨0, 0, 0, 0⟩ }

/-- A cached response value used by concrete witnesses. -/
def demoCachedResult : HttpResult :=
  { payload := { query := "q", answer := "a cached answer",
                 source_document := "a.png", similarity_score := 19 / 20,
                 context_documents := [("a.png", 19 / 20)], collection := "c",
                 processing_time := 1 },
    from_cache := false, cache_retrieval_time := none }

/-- The ordering asserted by the specification for retrieval output: strictly
descending similarity score, ties broken by ascending original index. -/
def specClaimedOrder (s : List ℚ) (l : List Nat) : Prop :=
  l.Pairwise (fun i j => s.getD j 0 < s.getD i 0 ∨ (s.getD i 0 = s.getD j 0 ∧ i < j))

/-! ## Shared lemmas about the sort model -/

theorem argsortStable_perm (s : List ℚ) : (argsortStable s).Perm (List.range s.length) :=
  List.perm_insertionSort _ _

theorem argsortStable_strict (s : List ℚ) :
    (argsortStable s).Pairwise
      (fun i j => s.getD i 0 < s.getD j 0 ∨ (s.getD i 0 = s.getD j 0 ∧ i < j)) := by
  have hs : (argsortStable s).Pairwise (argRel s) :=
    List.sorted_insertionSort (argRel s) (List.range s.length)
  have hnd : (argsortStable s).Nodup :=
    ((argsortStable_perm s).symm.nodup (List.nodup_range _))
  refine (hs.and hnd).imp ?_
  rintro a b ⟨hr, hne⟩
  rcases hr with h | ⟨h, hle⟩
  · exact Or.inl h
  · exact Or.inr ⟨h, lt_of_le_of_ne hle hne⟩

theorem argsortStable_length (s : List ℚ) : (argsortStable s).length = s.length :=
  (argsortStable_perm s).length_eq.trans (List.length_range _)

theorem topIndices_length (s : List ℚ) (k : Nat) (h1 : 1 ≤ k) (h2 : k ≤ s.length) :
    (topIndices s k).length = k := by
  have hk : k ≠ 0 := Nat.one_le_iff_ne_zero.mp h1
  simp [topIndices, takeLastPy, hk, argsortStable_length]
  omega

theorem topIndices_sorted (s : List ℚ) (k : Nat) :
    (topIndices s k).Pairwise
      (fun i j => s.getD j 0 < s.getD i 0 ∨ (s.getD i 0 = s.getD j 0 ∧ j < i)) := by
  have hdrop : ∀ n, ((argsortStable s).drop n).Pairwise
      (fun i j => s.getD i 0 < s.getD j 0 ∨ (s.getD i 0 = s.getD j 0 ∧ i < j)) :=
    fun n => List.Pairwise.sublist (List.drop_sublist _ _) (argsortStable_strict s)
  have hfull : (takeLastPy k (argsortStable s)).Pairwise
      (fun i j => s.getD i 0 < s.getD j 0 ∨ (s.getD i 0 = s.getD j 0 ∧ i < j)) := by
    unfold takeLastPy
    split
    · exact argsortStable_strict s
    · exact hdrop _
  unfold topIndices
  rw [List.pairwise_reverse]
  refine hfull.imp ?_
  rintro a b (h | ⟨h, hab⟩)
  · exact Or.inl h
  · exact Or.inr ⟨h.symm, hab⟩

theorem mem_topIndices_lt (s : List ℚ) (k : Nat) {i : Nat} (h : i ∈ topIndices s k) :
    i < s.length := by
  have h1 : i ∈ takeLastPy k (argsortStable s) := (List.mem_reverse).mp h
  have h2 : i ∈ argsortStable s := by
    unfold takeLastPy at h1
    split at h1
    · exact h1
    · exact List.mem_of_mem_drop h1
  exact List.mem_range.mp (((argsortStable_perm s).mem_iff).mp h2)

theorem rowScores_length (q : List ℚ) (embs : List (List ℚ)) :
    (rowScores q embs).length = embs.length := List.length_map _ _

theorem searchReady_mem (q : List ℚ) (img_paths : List String)
    (embs : List (List ℚ)) (top_k : Nat)
    (hle : embs.length ≤ img_paths.length) :
    ∀ r ∈ searchReady q img_paths embs top_k, r.1 ∈ img_paths := by
  intro r hr
  unfold searchReady at hr
  rcases List.mem_map.mp hr with ⟨i, hi, hri⟩
  have hilt : i < img_paths.length := by
    have := mem_topIndices_lt (rowScores q embs) top_k hi
    rw [rowScores_length] at this
    omega
  have hg : img_paths.getD i "" = img_paths[i] := List.getD_eq_getElem _ _ hilt
  rw [← hri]
  show img_paths.getD i "" ∈ img_paths
  rw [hg]
  exact List.getElem_mem hilt

theorem processImages_rows_le (prov : Providers) (input_paths : List String) :
    (processImages prov input_paths).2.length ≤ (processImages prov input_paths).1.length := by
  unfold processImages
  split
  · simp [prov.demoRand_rows]
  · simpa using List.length_filterMap_le _ _

/-! ## Shared lemmas about the fingerprint -/

theorem string_data_append (s t : String) : (s ++ t).data = s.data ++ t.data := by
  cases s; cases t; rfl

theorem wordHex_length (w : Nat) : (wordHex w).length = 8 := by
  simp [wordHex, byteHex]

theorem md5Hex_length (s : String) : (md5Hex s).data.length = 32 := by
  unfold md5Hex
  simp [wordHex_length]

theorem fingerprint_data (n q : String) :
    (fingerprint n q).data =
      ("rag:".data ++ n.data ++ ":".data) ++ (md5Hex q).data := by
  unfold fingerprint
  rw [string_data_append, string_data_append, string_data_append]

theorem fingerprint_name_eq {n1 n2 q1 q2 : String}
    (h : fingerprint n1 q1 = fingerprint n2 q2) : n1 = n2 := by
  have hd : (fingerprint n1 q1).data = (fingerprint n2 q2).data := by rw [h]
  rw [fingerprint_data, fingerprint_data] at hd
  have hlen : (md5Hex q1).data.length = (md5Hex q2).data.length := by
    rw [md5Hex_length, md5Hex_length]
  obtain ⟨hmid, -⟩ := List.append_inj' hd hlen
  obtain ⟨hleft, -⟩ := List.append_inj' hmid rfl
  obtain ⟨-, hn⟩ := List.append_inj hleft rfl
  cases n1; cases n2
  exact congrArg String.mk hn

theorem wordHexQuad_congr {a1 b1 c1 d1 a2 b2 c2 d2 : Nat}
    (ha : u32 a1 = u32 a2) (hb : u32 b1 = u32 b2)
    (hc : u32 c1 = u32 c2) (hd : u32 d1 = u32 d2) :
    wordHex a1 ++ wordHex b1 ++ wordHex c1 ++ wordHex d1 =
      wordHex a2 ++ wordHex b2 ++ wordHex c2 ++ wordHex d2 := by
  unfold wordHex
  rw [ha, hb, hc, hd]

theorem md5Hex_eq_of_md5Fin_eq {q1 q2 : String} (h : md5Fin q1 = md5Fin q2) :
    md5Hex q1 = md5Hex q2 := by
  unfold md5Fin at h
  have ha := congrArg (fun x => x.1.val) h
  have hb := congrArg (fun x => x.2.1.val) h
  have hc := congrArg (fun x => x.2.2.1.val) h
  have hd := congrArg (fun x => x.2.2.2.val) h
  simp only at ha hb hc hd
  unfold md5Hex
  exact congrArg String.mk (wordHexQuad_congr ha hb hc hd)

/-! ## Claim C8 -/

/-- C8 (amended): the fingerprint is a deterministic pure function of the pair
(collection name, exact query text) with no normalization, and two calls that
differ in collection name always produce different fingerprints; but two calls
that differ only in query text are separated only up to MD5 collisions, which
exist. This theorem is the provable separation part: distinct collection names
never collide, whatever the query texts. -/
theorem fingerprint_separates_names (n1 n2 q1 q2 : String) (h : n1 ≠ n2) :
    fingerprint n1 q1 ≠ fingerprint n2 q2 :=
  fun he => h (fingerprint_name_eq he)

theorem fingerprint_separates_names_witness :
    "docs" ≠ "other" ∧
      fingerprint "docs" "What is shown?" ≠ fingerprint "other" "What is shown?" :=
  ⟨by decide, fingerprint_separates_names "docs" "other" "What is shown?"
    "What is shown?" (by decide)⟩

/-- C8 counterexample: the claim that two calls differing in query text always
produce different fingerprints is false: the query text enters the key only
through its 128-bit MD5 digest, and strings are infinite while digests are
finite, so two distinct query texts with identical fingerprints exist. -/
theorem fingerprint_query_collision_exists :
    ∃ q1 q2 : String, q1 ≠ q2 ∧ fingerprint "docs" q1 = fingerprint "docs" q2 := by
  obtain ⟨q1, q2, hne, heq⟩ := Finite.exists_ne_map_eq_of_infinite md5Fin
  refine ⟨q1, q2, hne, ?_⟩
  unfold fingerprint
  rw [md5Hex_eq_of_md5Fin_eq heq]

/-! ## Claim C2 -/

/-- C2 counterexample: two stored items whose scores are exactly equal. The
code (`np.argsort` ascending, slice, reverse) emits original index 1 before
original index 0, so the claimed ordering — strictly descending score with
ties broken by ascending original index — is violated. -/
theorem search_tie_order_counterexample :
    topIndices (rowScores [1] [[1], [1]]) 2 = [1, 0] ∧
    ¬ specClaimedOrder (rowScores [1] [[1], [1]])
        (topIndices (rowScores [1] [[1], [1]]) 2) := by
  have hs : rowScores [1] [[1], [1]] = [1, 1] := by
    norm_num [rowScores, dotQ]
  rw [hs]
  constructor
  · decide
  · unfold specClaimedOrder
    decide

/-- C2 (amended): for `1 ≤ top_k ≤ N`, retrieval returns exactly `top_k`
results ordered by non-increasing similarity score, and two results with
exactly equal scores are ordered by descending original index (the sort is
ascending-stable and then reversed). -/
theorem search_topk_sorted (q : List ℚ) (img_paths : List String)
    (embs : List (List ℚ)) (k : Nat) (h1 : 1 ≤ k) (h2 : k ≤ embs.length) :
    (searchReady q img_paths embs k).length = k ∧
    (topIndices (rowScores q embs) k).Pairwise
      (fun i j => (rowScores q embs).getD j 0 < (rowScores q embs).getD i 0 ∨
        ((rowScores q embs).getD i 0 = (rowScores q embs).getD j 0 ∧ j < i)) ∧
    (searchReady q img_paths embs k).map Prod.snd =
      (topIndices (rowScores q embs) k).map
        (fun i => (rowScores q embs).getD i 0) := by
  refine ⟨?_, topIndices_sorted _ _, ?_⟩
  · unfold searchReady
    rw [List.length_map, topIndices_length _ _ h1 (by rw [rowScores_length]; exact h2)]
  · unfold searchReady
    rw [List.map_map]
    rfl

theorem search_topk_sorted_witness :
    (searchReady [1] ["a", "b"] [[2], [1]] 2).length = 2 ∧
    (topIndices (rowScores [1] [[2], [1]]) 2).Pairwise
      (fun i j => (rowScores [1] [[2], [1]]).getD j 0 <
          (rowScores [1] [[2], [1]]).getD i 0 ∨
        ((rowScores [1] [[2], [1]]).getD i 0 =
            (rowScores [1] [[2], [1]]).getD j 0 ∧ j < i)) ∧
    (searchReady [1] ["a", "b"] [[2], [1]] 2).map Prod.snd =
      (topIndices (rowScores [1] [[2], [1]]) 2).map
        (fun i => (rowScores [1] [[2], [1]]).getD i 0) :=
  search_topk_sorted [1] ["a", "b"] [[2], [1]] 2 (by decide) (by decide)

/-! ## Claim C9 -/

/-- C9: when the requested `top_k` exceeds the collection size N (with N ≥ 1),
retrieval neither fails nor pads: it returns exactly the N available items,
each of which is one of the collection's stored item references. -/
theorem search_topk_exceeding_returns_all (q : List ℚ) (img_paths : List String)
    (embs : List (List ℚ)) (k : Nat) (hN : 1 ≤ embs.length)
    (hk : embs.length < k) (hle : embs.length ≤ img_paths.length) :
    (searchReady q img_paths embs k).length = embs.length ∧
    ∀ r ∈ searchReady q img_paths embs k, r.1 ∈ img_paths := by
  constructor
  · unfold searchReady
    rw [List.length_map]
    have hs : (rowScores q embs).length = embs.length := rowScores_length q embs
    have hk0 : k ≠ 0 := by omega
    simp [topIndices, takeLastPy, hk0, argsortStable_length, hs]
    omega
  · exact searchReady_mem q img_paths embs k hle

theorem search_topk_exceeding_returns_all_witness :
    (searchReady [1] ["a", "b"] [[2], [1]] 5).length = 2 ∧
    ∀ r ∈ searchReady [1] ["a", "b"] [[2], [1]] 5, r.1 ∈ ["a", "b"] :=
  search_topk_exceeding_returns_all [1] ["a", "b"] [[2], [1]] 5
    (by decide) (by decide) (by decide)

/-! ## Claim C1 -/

/-- C1 (code bug, exhibited): indexing two image files while the embedding
provider fails on the second stores a collection whose item-reference list
still contains the failed item (2 references) while its embedding matrix has
only 1 row — the `continue` in `process_images` skips only the append to
`embeddings`, leaving the failed item's path in `img_paths`, so the
row-count = reference-count invariant is violated and the two lists misalign. -/
theorem index_failed_embed_breaks_invariant :
    ∃ coll : Collection,
      lookupColl ((indexDocuments failingEmbedProviders freshRag "c"
          [FileInput.img "a.png" (.ok "collections/c/a.png"),
           FileInput.img "b.png" (.ok "collections/c/b.png")] 0 0).2) "c" =
        some coll ∧
      coll.image_paths.length = 2 ∧ coll.embeddings.length = 1 := by
  refine ⟨_, rfl, ?_, ?_⟩ <;> decide

/-! ## Claim C3 -/

/-- C3 counterexample: a failed query attempt (unknown collection) increments
the total-query counter to 1 but leaves the rolling average untouched at 0,
whereas the claimed per-attempt update would set it to
(0 * (1 - 1) + latest_latency) / 1 = latest_latency = 1. -/
theorem failed_query_skips_avg_update :
    ((serviceQuery demoProviders freshRag "q" "missing" 1 true 1).2).metrics.total_queries = 1 ∧
    ((serviceQuery demoProviders freshRag "q" "missing" 1 true 1).2).metrics.avg_query_time = 0 ∧
    (0 : ℚ) ≠ (0 * ((1 : ℚ) - 1) + 1) / 1 := by
  refine ⟨rfl, rfl, by norm_num⟩

/-- C3 (amended): the incremental rolling-average formula
`new_avg = (old_avg * (n - 1) + latest_latency) / n`, with `n` the
post-increment total-query count, is applied exactly when the pipeline
produces an answer; cache hits and failed query attempts increment the
total-query counter without updating the average. This theorem is the
successful-path half. -/
theorem serviceQuery_success_avg_update (prov : Providers) (st : RagState)
    (question name : String) (k : Nat) (ic : Bool) (lat : ℚ) (r : QueryResult)
    (h : (serviceQuery prov st question name k ic lat).1 = .ok r) :
    ((serviceQuery prov st question name k ic lat).2).metrics.total_queries =
      st.metrics.total_queries + 1 ∧
    ((serviceQuery prov st question name k ic lat).2).metrics.avg_query_time =
      (st.metrics.avg_query_time *
          (((st.metrics.total_queries + 1 : Nat) : ℚ) - 1) + lat) /
        ((st.metrics.total_queries + 1 : Nat) : ℚ) := by
  unfold serviceQuery at h ⊢
  rcases hc : lookupColl st name with _ | coll <;> simp only [hc] at h ⊢
  · simp at h
  · by_cases hlen : coll.image_paths.length = 0
    · rw [if_pos hlen] at h ⊢
      simp at h
    · rw [if_neg hlen] at h ⊢
      rcases hs : searchModel prov coll.image_paths coll.embeddings k with e | res <;>
        simp only [hs] at h ⊢
      · simp at h
      · rcases res with _ | ⟨⟨bp, bs⟩, rest⟩
        · simp at h
        · rcases ha : answerModel prov question bp with e | ans <;>
            simp only [ha] at h ⊢
          · simp at h
          · trivial

theorem serviceQuery_success_avg_update_witness :
    ((serviceQuery demoProviders demoRag "q" "c" 1 true 2).2).metrics.total_queries =
      demoRag.metrics.total_queries + 1 ∧
    ((serviceQuery demoProviders demoRag "q" "c" 1 true 2).2).metrics.avg_query_time =
      (demoRag.metrics.avg_query_time *
          (((demoRag.metrics.total_queries + 1 : Nat) : ℚ) - 1) + 2) /
        ((demoRag.metrics.total_queries + 1 : Nat) : ℚ) :=
  serviceQuery_success_avg_update demoProviders demoRag "q" "c" 1 true 2 _ rfl

/-! ## Claim C5 -/

/-- C5: if any single file's rasterization or copy raises during an ingestion
call, the whole call aborts with that error and the registry state is exactly
what it was before the call: in particular the entry under the target name and
the `total_documents` counter are unchanged. -/
theorem indexDocuments_aborts_on_file_error (prov : Providers) (st : RagState)
    (name : String) (files : List FileInput) (now elapsed : ℚ) (e : String)
    (hf : processFiles files = .error e) :
    indexDocuments prov st name files now elapsed = (.error e, st) := by
  unfold indexDocuments
  rw [hf]

theorem indexDocuments_aborts_on_file_error_witness :
    indexDocuments demoProviders demoRag "c"
        [FileInput.img "a.png" (.ok "collections/c/a.png"),
         FileInput.pdf "broken.pdf" (.error "cannot open broken.pdf")] 7 1 =
      (.error "cannot open broken.pdf", demoRag) :=
  indexDocuments_aborts_on_file_error demoProviders demoRag "c" _ 7 1
    "cannot open broken.pdf" rfl

/-! ## Claim C6 -/

/-- C6: a successful ingestion under any name — in particular a name that
already holds a collection — replaces that collection wholesale: the stored
item references, embedding matrix, `created_at`, `document_count` and
`total_pages` afterwards are exactly the ones computed from the second call's
own inputs, independent of the previous contents, and every retrieval result
from the new collection is one of the second call's item references. -/
theorem indexDocuments_replaces_wholesale (prov : Providers) (st : RagState)
    (name : String) (files : List FileInput) (now elapsed : ℚ)
    (paths : List String) (total : Nat)
    (hf : processFiles files = .ok (paths, total)) :
    lookupColl ((indexDocuments prov st name files now elapsed).2) name =
      some { image_paths := (processImages prov paths).1,
             embeddings := (processImages prov paths).2,
             created_at := now, document_count := files.length,
             total_pages := total } ∧
    ∀ q k r, r ∈ searchReady q (processImages prov paths).1
        (processImages prov paths).2 k → r.1 ∈ (processImages prov paths).1 := by
  constructor
  · unfold indexDocuments
    rw [hf]
    simp [lookupColl]
  · intro q k r hr
    exact searchReady_mem q _ _ k (processImages_rows_le prov paths) r hr

theorem indexDocuments_replaces_wholesale_witness :
    lookupColl ((indexDocuments demoProviders demoRag "c"
        [FileInput.img "b.png" (.ok "collections/c/b.png")] 9 1).2) "c" =
      some { image_paths := (processImages demoProviders ["collections/c/b.png"]).1,
             embeddings := (processImages demoProviders ["collections/c/b.png"]).2,
             created_at := 9, document_count := 1, total_pages := 1 } ∧
    ∀ q k r, r ∈ searchReady q (processImages demoProviders ["collections/c/b.png"]).1
        (processImages demoProviders ["collections/c/b.png"]).2 k →
      r.1 ∈ (processImages demoProviders ["collections/c/b.png"]).1 :=
  indexDocuments_replaces_wholesale demoProviders demoRag "c"
    [FileInput.img "b.png" (.ok "collections/c/b.png")] 9 1
    ["collections/c/b.png"] 1 rfl

/-! ## Shared lemmas about the endpoint cache paths -/

theorem redisGet_head (key : String) (v : HttpResult) (ttl : Nat) (c : RedisCache) :
    redisGet (redisSetex c key v ttl) key = some v := by
  simp [redisGet, redisSetex, List.find?]

theorem ragQuery_hit (prov : Providers) (rag : RagState) (c : RedisCache)
    (question name : String) (k : Nat) (ic : Bool) (sl hl cl : ℚ) (v : HttpResult)
    (hh : redisGet c (fingerprint name question) = some v) :
    ragQuery prov ⟨rag, some c⟩ question name k ic sl hl cl =
      (.ok { v with from_cache := true, cache_retrieval_time := some cl },
       ⟨{ rag with metrics := { rag.metrics with
            total_queries := rag.metrics.total_queries + 1,
            cache_hits := rag.metrics.cache_hits + 1 } }, some c⟩) := by
  unfold ragQuery
  simp only [hh]

theorem serviceQuery_keeps_cache_hits (prov : Providers) (st : RagState)
    (question name : String) (k : Nat) (ic : Bool) (lat : ℚ) :
    ((serviceQuery prov st question name k ic lat).2).metrics.cache_hits =
      st.metrics.cache_hits := by
  unfold serviceQuery
  split
  · rfl
  · split
    · rfl
    · split
      · rfl
      · rfl
      · split
        · rfl
        · rfl

theorem runQueries_keeps_cache_hits (prov : Providers) (queries : List String)
    (name : String) (k : Nat) (lat : ℚ) :
    ∀ rag : RagState,
      ((runQueries prov rag queries name k lat).2).metrics.cache_hits =
        rag.metrics.cache_hits := by
  induction queries with
  | nil => intro rag; rfl
  | cons q rest ih =>
      intro rag
      unfold runQueries
      dsimp only
      rw [ih]
      exact serviceQuery_keeps_cache_hits prov rag q name k false lat

/-! ## Claim C7 -/

/-- C7: when the fingerprint hits the cache, the endpoint returns the cached
payload annotated with `from_cache = true` and the fresh retrieval-latency
measurement, increments exactly the cache-hit and total-query counters
(collections and the cache itself unchanged), and returns without executing
retrieval or generation: the outcome is identical for any providers, `top_k`,
`include_context` and pipeline latency. -/
theorem ragQuery_cache_hit_short_circuits (prov prov' : Providers)
    (rag : RagState) (c : RedisCache) (question name : String) (k k' : Nat)
    (ic ic' : Bool) (sl sl' hl hl' cl : ℚ) (v : HttpResult)
    (hh : redisGet c (fingerprint name question) = some v) :
    ragQuery prov ⟨rag, some c⟩ question name k ic sl hl cl =
      (.ok { v with from_cache := true, cache_retrieval_time := some cl },
       ⟨{ rag with metrics := { rag.metrics with
            total_queries := rag.metrics.total_queries + 1,
            cache_hits := rag.metrics.cache_hits + 1 } }, some c⟩) ∧
    ragQuery prov ⟨rag, some c⟩ question name k ic sl hl cl =
      ragQuery prov' ⟨rag, some c⟩ question name k' ic' sl' hl' cl :=
  ⟨ragQuery_hit prov rag c question name k ic sl hl cl v hh,
   (ragQuery_hit prov rag c question name k ic sl hl cl v hh).trans
     (ragQuery_hit prov' rag c question name k' ic' sl' hl' cl v hh).symm⟩

theorem ragQuery_cache_hit_short_circuits_witness :
    ragQuery demoProviders
        ⟨demoRag, some (redisSetex [] (fingerprint "c" "q") demoCachedResult 600)⟩
        "q" "c" 1 true 1 1 (1 / 2) =
      (.ok { demoCachedResult with from_cache := true, cache_retrieval_time := some (1 / 2) },
       ⟨{ demoRag with metrics := { demoRag.metrics with
            total_queries := demoRag.metrics.total_queries + 1,
            cache_hits := demoRag.metrics.cache_hits + 1 } },
        some (redisSetex [] (fingerprint "c" "q") demoCachedResult 600)⟩) ∧
    ragQuery demoProviders
        ⟨demoRag, some (redisSetex [] (fingerprint "c" "q") demoCachedResult 600)⟩
        "q" "c" 1 true 1 1 (1 / 2) =
      ragQuery failingEmbedProviders
        ⟨demoRag, some (redisSetex [] (fingerprint "c" "q") demoCachedResult 600)⟩
        "q" "c" 5 false 3 7 (1 / 2) :=
  ragQuery_cache_hit_short_circuits demoProviders failingEmbedProviders demoRag
    (redisSetex [] (fingerprint "c" "q") demoCachedResult 600) "q" "c" 1 5 true
    false 1 3 1 7 (1 / 2) demoCachedResult
    (redisGet_head (fingerprint "c" "q") demoCachedResult 600 [])

/-! ## Claim C4 -/

/-- C4: on a cache miss the result is stored under the query's fingerprint if
and only if the pipeline produced an answer, and then with the fixed TTL of
600 seconds (10 minutes): the cache afterwards is unchanged when the pipeline
raised (or returned an empty answer), and is exactly the old cache extended
with the annotated result under the fingerprint with TTL 600 when an answer
was produced. -/
theorem ragQuery_stores_iff_answer (prov : Providers) (rag : RagState)
    (c : RedisCache) (question name : String) (k : Nat) (ic : Bool)
    (sl hl cl : ℚ)
    (hm : redisGet c (fingerprint name question) = none) :
    ((ragQuery prov ⟨rag, some c⟩ question name k ic sl hl cl).2).redis =
      some (match (serviceQuery prov rag question name k ic sl).1 with
        | .error _ => c
        | .ok r =>
            if r.answer = "" then c
            else redisSetex c (fingerprint name question)
              { payload := { r with processing_time := hl },
                from_cache := false, cache_retrieval_time := none } 600) := by
  unfold ragQuery
  simp only [hm]
  rcases (serviceQuery prov rag question name k ic sl).1 with e | r
  · rfl
  · by_cases ha : r.answer = "" <;> simp [ha]

theorem ragQuery_stores_iff_answer_witness :
    ((ragQuery demoProviders ⟨demoRag, some []⟩ "q" "c" 1 true 1 2 0).2).redis =
      some (match (serviceQuery demoProviders demoRag "q" "c" 1 true 1).1 with
        | .error _ => ([] : RedisCache)
        | .ok r =>
            if r.answer = "" then ([] : RedisCache)
            else redisSetex [] (fingerprint "c" "q")
              { payload := { r with processing_time := 2 },
                from_cache := false, cache_retrieval_time := none } 600) :=
  ragQuery_stores_iff_answer demoProviders demoRag [] "q" "c" 1 true 1 2 0 rfl

/-! ## Claim C10 -/

/-- C10: the batch-query interface never consults and never populates the
query cache: after a batch within the size guard, the Redis cache and the
cache-hit counter are exactly as before, and every slot of the response is the
result of running the full retrieval-and-generation pipeline on that
sub-query — even when the batch's first (collection, query text) pair has a
live cached entry that a single query would hit. -/
theorem batchRagQuery_bypasses_cache (prov : Providers) (rag : RagState)
    (c : RedisCache) (queries : List String) (name : String) (k : Nat) (lat : ℚ)
    (v : HttpResult) (hne : queries ≠ []) (hcap : queries.length ≤ 20)
    (hhit : redisGet c (fingerprint name (queries.headD "")) = some v) :
    ((batchRagQuery prov ⟨rag, some c⟩ queries name k lat).2).redis = some c ∧
    ((batchRagQuery prov ⟨rag, some c⟩ queries name k lat).2).rag.metrics.cache_hits =
      rag.metrics.cache_hits ∧
    (batchRagQuery prov ⟨rag, some c⟩ queries name k lat).1 =
      .ok (runQueries prov rag queries name k lat).1 := by
  have h0 : ¬ queries.length = 0 := by
    simpa [List.length_eq_zero] using hne
  have hc : ¬ 20 < queries.length := by omega
  unfold batchRagQuery
  rw [if_neg h0, if_neg hc]
  exact ⟨rfl, runQueries_keeps_cache_hits prov queries name k lat rag, rfl⟩

theorem batchRagQuery_bypasses_cache_witness :
    ((batchRagQuery demoProviders
        ⟨demoRag, some (redisSetex [] (fingerprint "c" "q") demoCachedResult 600)⟩
        ["q"] "c" 1 1).2).redis =
      some (redisSetex [] (fingerprint "c" "q") demoCachedResult 600) ∧
    ((batchRagQuery demoProviders
        ⟨demoRag, some (redisSetex [] (fingerprint "c" "q") demoCachedResult 600)⟩
        ["q"] "c" 1 1).2).rag.metrics.cache_hits = demoRag.metrics.cache_hits ∧
    (batchRagQuery demoProviders
        ⟨demoRag, some (redisSetex [] (fingerprint "c" "q") demoCachedResult 600)⟩
        ["q"] "c" 1 1).1 =
      .ok (runQueries demoProviders demoRag ["q"] "c" 1 1).1 :=
  batchRagQuery_bypasses_cache demoProviders demoRag
    (redisSetex [] (fingerprint "c" "q") demoCachedResult 600) ["q"] "c" 1 1
    demoCachedResult (by decide) (by decide)
    (redisGet_head (fingerprint "c" "q") demoCachedResult 600 [])
